import Mathlib

/-!
Verification of the Express Entry healthcare-round monitor.

Shallow embedding of the repository's core pipeline:
  - `src/validation.ts`  : `isValidISODate`, `isPositiveInteger`, `isValidInvitationData`
  - `src/comparison.ts`  : `compareData`
  - `src/storage.ts`     : `readStoredData`, `writeStoredData`
  - `src/scraper.ts`     : `scrapeHealthcareRound` (retry loop; one remote attempt
                            is abstracted as an oracle, as in the spec)
  - `src/controller.ts`  : `runMonitor`

JavaScript numbers are modelled as rationals (ℚ), which captures the
`Number.isInteger` checks of the validation layer exactly on the values this
program handles.  Effects (logging, sleeping, filesystem, network) are made
explicit: functions return traces of the events they emit, and the filesystem
is a map from paths to file contents.
-/

namespace ExpressEntry

instance exceptDecEq {ε α : Type} [DecidableEq ε] [DecidableEq α] :
    DecidableEq (Except ε α)
  | .error a, .error b =>
    if h : a = b then .isTrue (by rw [h])
    else .isFalse (fun hc => h (Except.error.inj hc))
  | .error _, .ok _ => .isFalse (fun hc => Except.noConfusion hc)
  | .ok _, .error _ => .isFalse (fun hc => Except.noConfusion hc)
  | .ok a, .ok b =>
    if h : a = b then .isTrue (by rw [h])
    else .isFalse (fun hc => h (Except.ok.inj hc))

/-- `InvitationData` from `src/types.ts`: the three-field domain record. -/
structure InvitationData where
  date : String
  invitations : ℚ
  crsScore : ℚ
deriving DecidableEq, Repr

/-- `ComparisonResult` from `src/types.ts`. -/
structure ComparisonResult where
  hasChanged : Bool
  previous : Option InvitationData
  current : InvitationData
deriving DecidableEq, Repr

/-- `ScraperConfig` from `src/types.ts`. `retries` is a JS number used as an
integral loop bound; modelled as `Int` so that non-positive configurations
(claim about `retries ≤ 0`) are expressible. -/
structure ScraperConfig where
  url : String
  timeout : ℚ
  retries : Int
  retryDelay : ℚ
deriving DecidableEq, Repr

/-- `StorageConfig` from `src/types.ts`. -/
structure StorageConfig where
  dataFilePath : String
deriving DecidableEq, Repr

/-! ## Validation (`src/validation.ts`) -/

/-- The digit value of a character (JS `Number` on a single digit). -/
def digitVal (c : Char) : Nat := c.toNat - 48

/-- The character for a digit value. -/
def digitChar (n : Nat) : Char := Char.ofNat (48 + n)

/-- Real proleptic-Gregorian calendar rules, as implemented by the JS engine's
UTC date arithmetic: leap years are divisible by 4 but not 100, or by 400. -/
def isLeapYear (y : Nat) : Bool := (y % 4 == 0 && y % 100 != 0) || y % 400 == 0

/-- Number of days in month `m` of year `y` (Gregorian). -/
def daysInMonth (y m : Nat) : Nat :=
  if m = 2 then (if isLeapYear y then 29 else 28)
  else if m = 4 ∨ m = 6 ∨ m = 9 ∨ m = 11 then 30
  else 31

/-- A real Gregorian calendar date with the given numeric components. -/
def isRealGregorianDate (y m d : Nat) : Bool :=
  1 ≤ m && m ≤ 12 && 1 ≤ d && d ≤ daysInMonth y m

/-- Modelled builtin: `new Date("YYYY-MM-DD")` producing a non-NaN time value
together with the `getUTCFullYear/Month/Date` component re-check of
`isValidISODate`.  The ECMAScript ISO parse accepts exactly the in-range real
calendar dates, and the component re-check makes this exact even on engines
that clamp; so the combination holds iff the components form a real Gregorian
date. -/
def jsISOComponentsValid (y m d : Nat) : Bool := isRealGregorianDate y m d

/-- `isValidISODate` from `src/validation.ts`, on the character list of the
input string: the `^\d{4}-\d{2}-\d{2}$` regex test, the numeric `split`
(`Number` on pure-digit parts is positional digit arithmetic), and the
`new Date` validity plus UTC component comparison. -/
def isoDateCheck (cs : List Char) : Bool :=
  match cs with
  | [y1, y2, y3, y4, h1, m1, m2, h2, d1, d2] =>
    if y1.isDigit && y2.isDigit && y3.isDigit && y4.isDigit && h1 == '-'
        && m1.isDigit && m2.isDigit && h2 == '-' && d1.isDigit && d2.isDigit then
      jsISOComponentsValid
        (1000 * digitVal y1 + 100 * digitVal y2 + 10 * digitVal y3 + digitVal y4)
        (10 * digitVal m1 + digitVal m2)
        (10 * digitVal d1 + digitVal d2)
    else false
  | _ => false

/-- `isValidISODate` from `src/validation.ts`. -/
def isValidISODate (s : String) : Bool := isoDateCheck s.data

/-- `isPositiveInteger` from `src/validation.ts`:
`Number.isInteger(value) && value > 0` on a JS number. -/
def isPositiveInteger (q : ℚ) : Bool := q.den == 1 && decide (0 < q)

/-- `isValidInvitationData` from `src/validation.ts`, restricted to values
that already have the `InvitationData` record shape (the `typeof` checks of
the source reduce to the field checks there). -/
def isValidInvitationRecord (d : InvitationData) : Bool :=
  isValidISODate d.date && isPositiveInteger d.invitations
    && isPositiveInteger d.crsScore

/-! ## Comparison (`src/comparison.ts`) -/

/-- `compareData` from `src/comparison.ts`.  The thrown `Error` is modelled as
`Except.error` carrying the message after the catch-and-rethrow wrapper adds
its `Comparison failed: ` context.  `!current.date` on a string field is the
empty-string (falsy) test. -/
def compareData (previous : Option InvitationData) (current : InvitationData) :
    Except String ComparisonResult :=
  if current.date == "" then
    .error "Comparison failed: Invalid current data: missing date field"
  else
    match previous with
    | none => .ok { hasChanged := true, previous := none, current := current }
    | some p =>
      if p.date == "" then
        .error "Comparison failed: Invalid previous data: missing date field"
      else
        .ok { hasChanged := p.date != current.date, previous := some p,
              current := current }

/-! ## Spec-side formalisation pieces for the claims -/

/-- The four digit characters of a number below 10000, most significant
first: the textual `YYYY` block of the spec's `YYYY-MM-DD` shape. -/
def digits4 (n : Nat) : List Char :=
  [digitChar (n / 1000 % 10), digitChar (n / 100 % 10),
   digitChar (n / 10 % 10), digitChar (n % 10)]

/-- The two digit characters of a number below 100, most significant first:
a textual `MM` or `DD` block of the spec's `YYYY-MM-DD` shape. -/
def digits2 (n : Nat) : List Char :=
  [digitChar (n / 10 % 10), digitChar (n % 10)]

/-- Written from the spec's words: the string consists of a 4-digit block, a
hyphen, a 2-digit block, a hyphen and a 2-digit block, whose numeric values
are `y`, `m`, `d`. -/
def matchesISOShape (s : String) (y m d : Nat) : Prop :=
  y ≤ 9999 ∧ m ≤ 99 ∧ d ≤ 99 ∧
    s.data = digits4 y ++ '-' :: (digits2 m ++ '-' :: digits2 d)

/-! ### Digit-character lemmas -/

theorem digitChar_isDigit {n : Nat} (h : n < 10) : (digitChar n).isDigit = true := by
  unfold digitChar
  interval_cases n <;> decide

theorem digitVal_digitChar {n : Nat} (h : n < 10) : digitVal (digitChar n) = n := by
  unfold digitChar digitVal
  interval_cases n <;> decide

theorem isDigit_toNat_bounds {c : Char} (h : c.isDigit = true) :
    48 ≤ c.toNat ∧ c.toNat ≤ 57 := by
  simp only [Char.isDigit, Bool.and_eq_true, decide_eq_true_eq] at h
  obtain ⟨h1, h2⟩ := h
  exact ⟨h1, h2⟩

theorem digitChar_digitVal {c : Char} (h : c.isDigit = true) :
    digitChar (digitVal c) = c := by
  have hb := (isDigit_toNat_bounds h).1
  unfold digitChar digitVal
  have heq : 48 + (c.toNat - 48) = c.toNat := by omega
  rw [heq]
  exact Char.ofNat_toNat c

theorem digitVal_lt_ten {c : Char} (h : c.isDigit = true) : digitVal c < 10 := by
  have := isDigit_toNat_bounds h
  unfold digitVal
  omega

theorem isoDateCheck_iff (cs : List Char) :
    isoDateCheck cs = true ↔
      ∃ y m d, y ≤ 9999 ∧ m ≤ 99 ∧ d ≤ 99 ∧
        cs = digits4 y ++ '-' :: (digits2 m ++ '-' :: digits2 d) ∧
        isRealGregorianDate y m d = true := by
  constructor
  · intro h
    unfold isoDateCheck at h
    split at h
    case h_2 => exact absurd h (by simp)
    case h_1 y1 y2 y3 y4 h1 m1 m2 h2 d1 d2 =>
      split at h
      case isFalse => exact absurd h (by simp)
      case isTrue hguard =>
        simp only [Bool.and_eq_true, beq_iff_eq] at hguard
        obtain ⟨⟨⟨⟨⟨⟨⟨⟨⟨hy1, hy2⟩, hy3⟩, hy4⟩, hh1⟩, hm1⟩, hm2⟩, hh2⟩, hd1⟩, hd2⟩ := hguard
        refine ⟨1000 * digitVal y1 + 100 * digitVal y2 + 10 * digitVal y3 + digitVal y4,
          10 * digitVal m1 + digitVal m2, 10 * digitVal d1 + digitVal d2, ?_, ?_, ?_, ?_, ?_⟩
        · have := digitVal_lt_ten hy1
          have := digitVal_lt_ten hy2
          have := digitVal_lt_ten hy3
          have := digitVal_lt_ten hy4
          omega
        · have := digitVal_lt_ten hm1
          have := digitVal_lt_ten hm2
          omega
        · have := digitVal_lt_ten hd1
          have := digitVal_lt_ten hd2
          omega
        · have l1 := digitVal_lt_ten hy1
          have l2 := digitVal_lt_ten hy2
          have l3 := digitVal_lt_ten hy3
          have l4 := digitVal_lt_ten hy4
          have l5 := digitVal_lt_ten hm1
          have l6 := digitVal_lt_ten hm2
          have l7 := digitVal_lt_ten hd1
          have l8 := digitVal_lt_ten hd2
          unfold digits4 digits2
          have e1 : (1000 * digitVal y1 + 100 * digitVal y2 + 10 * digitVal y3 + digitVal y4) / 1000 % 10 = digitVal y1 := by omega
          have e2 : (1000 * digitVal y1 + 100 * digitVal y2 + 10 * digitVal y3 + digitVal y4) / 100 % 10 = digitVal y2 := by omega
          have e3 : (1000 * digitVal y1 + 100 * digitVal y2 + 10 * digitVal y3 + digitVal y4) / 10 % 10 = digitVal y3 := by omega
          have e4 : (1000 * digitVal y1 + 100 * digitVal y2 + 10 * digitVal y3 + digitVal y4) % 10 = digitVal y4 := by omega
          have e5 : (10 * digitVal m1 + digitVal m2) / 10 % 10 = digitVal m1 := by omega
          have e6 : (10 * digitVal m1 + digitVal m2) % 10 = digitVal m2 := by omega
          have e7 : (10 * digitVal d1 + digitVal d2) / 10 % 10 = digitVal d1 := by omega
          have e8 : (10 * digitVal d1 + digitVal d2) % 10 = digitVal d2 := by omega
          rw [e1, e2, e3, e4, e5, e6, e7, e8]
          rw [digitChar_digitVal hy1, digitChar_digitVal hy2, digitChar_digitVal hy3,
            digitChar_digitVal hy4, digitChar_digitVal hm1, digitChar_digitVal hm2,
            digitChar_digitVal hd1, digitChar_digitVal hd2]
          simp [hh1, hh2]
        · exact h
  · rintro ⟨y, m, d, hy, hm, hd, hform, hreal⟩
    have ly1 : y / 1000 % 10 < 10 := Nat.mod_lt _ (by omega)
    have ly2 : y / 100 % 10 < 10 := Nat.mod_lt _ (by omega)
    have ly3 : y / 10 % 10 < 10 := Nat.mod_lt _ (by omega)
    have ly4 : y % 10 < 10 := Nat.mod_lt _ (by omega)
    have lm1 : m / 10 % 10 < 10 := Nat.mod_lt _ (by omega)
    have lm2 : m % 10 < 10 := Nat.mod_lt _ (by omega)
    have ld1 : d / 10 % 10 < 10 := Nat.mod_lt _ (by omega)
    have ld2 : d % 10 < 10 := Nat.mod_lt _ (by omega)
    subst hform
    unfold isoDateCheck digits4 digits2
    simp only [List.cons_append, List.nil_append]
    rw [if_pos]
    · unfold jsISOComponentsValid
      rw [digitVal_digitChar ly1, digitVal_digitChar ly2, digitVal_digitChar ly3,
        digitVal_digitChar ly4, digitVal_digitChar lm1, digitVal_digitChar lm2,
        digitVal_digitChar ld1, digitVal_digitChar ld2]
      have ey : 1000 * (y / 1000 % 10) + 100 * (y / 100 % 10) + 10 * (y / 10 % 10) + y % 10 = y := by omega
      have em : 10 * (m / 10 % 10) + m % 10 = m := by omega
      have ed : 10 * (d / 10 % 10) + d % 10 = d := by omega
      rw [ey, em, ed]
      exact hreal
    · simp only [Bool.and_eq_true, beq_iff_eq, and_true, true_and]
      repeat' apply And.intro
      all_goals first
        | rfl
        | exact digitChar_isDigit (by omega)

theorem isValidISODate_ne_empty {s : String} (h : isValidISODate s = true) :
    s ≠ "" := by
  intro he
  subst he
  exact absurd h (by decide)

theorem valid_record_date_beq_empty_false {e : InvitationData}
    (h : isValidInvitationRecord e = true) : (e.date == "") = false := by
  unfold isValidInvitationRecord at h
  simp only [Bool.and_eq_true] at h
  have hne := isValidISODate_ne_empty h.1.1
  exact beq_eq_false_iff_ne.mpr hne

/-- C9: `isValidISODate` accepts exactly the strings of the `YYYY-MM-DD`
digit shape whose components form a real Gregorian calendar date, with the
leap-year edge cases behaving as the spec demands. -/
theorem isValidISODate_characterisation :
    (∀ s : String, isValidISODate s = true ↔
        ∃ y m d, matchesISOShape s y m d ∧ isRealGregorianDate y m d = true) ∧
      isValidISODate "2024-02-29" = true ∧
      isValidISODate "2023-02-29" = false ∧
      isValidISODate "2024-02-30" = false ∧
      isValidISODate "2024-13-01" = false := by
  refine ⟨?_, by decide, by decide, by decide, by decide⟩
  intro s
  unfold isValidISODate matchesISOShape
  rw [isoDateCheck_iff]
  constructor
  · rintro ⟨y, m, d, h1, h2, h3, h4, h5⟩
    exact ⟨y, m, d, ⟨h1, h2, h3, h4⟩, h5⟩
  · rintro ⟨y, m, d, ⟨h1, h2, h3, h4⟩, h5⟩
    exact ⟨y, m, d, h1, h2, h3, h4, h5⟩

theorem isValidISODate_characterisation_witness :
    isValidISODate "2024-02-29" = true ∧ isValidISODate "2023-02-29" = false :=
  ⟨isValidISODate_characterisation.2.1, isValidISODate_characterisation.2.2.1⟩

/-- C2: on inputs satisfying `isValidEntry`, `compareData` succeeds, echoes
both inputs unchanged, and sets `hasChanged` to true exactly when `previous`
is absent or the dates differ; equal dates with different counts or scores
give `hasChanged = false`. -/
theorem compareData_valid_inputs (previous : Option InvitationData)
    (current : InvitationData)
    (hcur : isValidInvitationRecord current = true)
    (hprev : ∀ p, previous = some p → isValidInvitationRecord p = true) :
    (previous = none →
        compareData previous current =
          .ok { hasChanged := true, previous := none, current := current }) ∧
      (∀ p, previous = some p →
        compareData previous current =
          .ok { hasChanged := p.date != current.date, previous := some p,
                current := current }) ∧
      (∀ p, previous = some p → p.date = current.date →
        compareData previous current =
          .ok { hasChanged := false, previous := some p, current := current }) := by
  have hc := valid_record_date_beq_empty_false hcur
  refine ⟨?_, ?_, ?_⟩
  · intro h
    subst h
    unfold compareData
    rw [hc]
    rfl
  · intro p h
    subst h
    have hp := valid_record_date_beq_empty_false (hprev p rfl)
    unfold compareData
    simp [hc, hp]
  · intro p h hdate
    subst h
    have hp := valid_record_date_beq_empty_false (hprev p rfl)
    unfold compareData
    simp [hc, hp, hdate]

theorem compareData_valid_inputs_witness :
    isValidInvitationRecord ⟨"2024-01-15", 100, 400⟩ = true ∧
      compareData (some ⟨"2024-01-15", 100, 400⟩) ⟨"2024-01-15", 9999, 999⟩ =
        .ok { hasChanged := false, previous := some ⟨"2024-01-15", 100, 400⟩,
              current := ⟨"2024-01-15", 9999, 999⟩ } :=
  ⟨by decide,
    (compareData_valid_inputs (some ⟨"2024-01-15", 100, 400⟩)
        ⟨"2024-01-15", 9999, 999⟩ (by decide)
        (fun p hp => by cases hp; decide)).2.2
      ⟨"2024-01-15", 100, 400⟩ rfl rfl⟩

/-- C3 counterexample: `⟨date := "2024-01-15", invitations := 0,
crsScore := 400⟩` fails `isValidEntry` (non-positive invitation count), yet
`compareData` does not raise — it returns a "change" outcome.  This refutes
the claim that `compareData` raises exactly on inputs failing
`isValidEntry`. -/
theorem compareData_accepts_invalid_entry :
    isValidInvitationRecord ⟨"2024-01-15", 0, 400⟩ = false ∧
      compareData none ⟨"2024-01-15", 0, 400⟩ =
        .ok { hasChanged := true, previous := none,
              current := ⟨"2024-01-15", 0, 400⟩ } :=
  ⟨by decide, by decide⟩

/-- C3 amended: `compareData` raises exactly when `current.date` is the empty
string, or `previous` is present with an empty `date`; the error message
identifies the failing side.  Inputs failing `isValidEntry` in any other way
(non-positive or non-integer counts, malformed non-empty dates) are not
rejected. -/
theorem compareData_error_characterisation (previous : Option InvitationData)
    (current : InvitationData) :
    ((∃ msg, compareData previous current = .error msg) ↔
        (current.date = "" ∨ ∃ p, previous = some p ∧ p.date = "")) ∧
      (current.date = "" →
        compareData previous current =
          .error "Comparison failed: Invalid current data: missing date field") ∧
      (∀ p, previous = some p → current.date ≠ "" → p.date = "" →
        compareData previous current =
          .error "Comparison failed: Invalid previous data: missing date field") := by
  refine ⟨⟨?_, ?_⟩, ?_, ?_⟩
  · rintro ⟨msg, hmsg⟩
    by_cases hc : current.date = ""
    · exact Or.inl hc
    · have hcb : (current.date == "") = false := beq_eq_false_iff_ne.mpr hc
      cases previous with
      | none => simp [compareData, hcb] at hmsg
      | some p =>
        by_cases hp : p.date = ""
        · exact Or.inr ⟨p, rfl, hp⟩
        · have hpb : (p.date == "") = false := beq_eq_false_iff_ne.mpr hp
          simp [compareData, hcb, hpb] at hmsg
  · rintro (hc | ⟨p, hprev, hp⟩)
    · exact ⟨"Comparison failed: Invalid current data: missing date field",
        by simp [compareData, hc]⟩
    · subst hprev
      by_cases hc : current.date = ""
      · exact ⟨"Comparison failed: Invalid current data: missing date field",
          by simp [compareData, hc]⟩
      · have hcb : (current.date == "") = false := beq_eq_false_iff_ne.mpr hc
        exact ⟨"Comparison failed: Invalid previous data: missing date field",
          by simp [compareData, hcb, hp]⟩
  · intro hc
    simp [compareData, hc]
  · intro p hprev hc hp
    subst hprev
    have hcb : (current.date == "") = false := beq_eq_false_iff_ne.mpr hc
    simp [compareData, hcb, hp]

theorem compareData_error_characterisation_witness :
    compareData (some ⟨"", 100, 400⟩) ⟨"2024-01-15", 150, 410⟩ =
      .error "Comparison failed: Invalid previous data: missing date field" :=
  (compareData_error_characterisation (some ⟨"", 100, 400⟩)
      ⟨"2024-01-15", 150, 410⟩).2.2 ⟨"", 100, 400⟩ rfl (by decide) rfl

/-! ## Acquisition (`src/scraper.ts`) -/

/-- Events the retry loop emits through the external Logger
(`logError` calls of `scrapeHealthcareRound`). -/
inductive ScrapeLog where
  | attemptFailed (attempt : Nat) (retries : Int) (cause : String)
  | allFailed (retries : Int) (cause : String)
deriving DecidableEq, Repr

/-- Trace of one `scrapeHealthcareRound` run: the returned value (`none` is
the source's `null`), the 1-indexed attempt numbers performed, the backoff
sleep durations in order, and the Logger events. -/
structure ScrapeTrace where
  result : Option InvitationData
  attempts : List Nat
  sleeps : List ℚ
  logs : List ScrapeLog
deriving DecidableEq, Repr

/-- The retry loop of `scrapeHealthcareRound` from `src/scraper.ts`.  A
single `attemptScrape` call is abstracted as the `oracle` collaborator (§6 of
the spec treats page extraction as opaque): `.ok` is a successful extraction,
`.error` a thrown failure.  The `for` loop is translated by structural
recursion on the number of remaining iterations (`fuel`, set to
`retries.toNat` by `scrapeHealthcareRound`, the iteration count of
`for (let attempt = 1; attempt <= config.retries; attempt++)`); the source's
loop guard `attempt <= config.retries` and sleep guard
`attempt < config.retries` are kept verbatim. -/
def scrapeLoop (oracle : Nat → Except String InvitationData) (retries : Int)
    (retryDelay : ℚ) : Nat → Nat → Option String → ScrapeTrace
  | 0, _, lastError =>
    { result := none, attempts := [], sleeps := [],
      logs := [.allFailed retries (lastError.getD "Unknown error")] }
  | fuel + 1, attempt, lastError =>
    if (attempt : Int) ≤ retries then
      match oracle attempt with
      | .ok data =>
        { result := some data, attempts := [attempt], sleeps := [], logs := [] }
      | .error e =>
        let rest := scrapeLoop oracle retries retryDelay fuel (attempt + 1) (some e)
        { result := rest.result,
          attempts := attempt :: rest.attempts,
          sleeps :=
            (if (attempt : Int) < retries then [retryDelay * 2 ^ (attempt - 1)]
             else []) ++ rest.sleeps,
          logs := .attemptFailed attempt retries e :: rest.logs }
    else
      { result := none, attempts := [], sleeps := [],
        logs := [.allFailed retries (lastError.getD "Unknown error")] }

/-- `scrapeHealthcareRound` from `src/scraper.ts`: runs the retry loop from
attempt 1 with no last error recorded. -/
def scrapeHealthcareRound (oracle : Nat → Except String InvitationData)
    (config : ScraperConfig) : ScrapeTrace :=
  scrapeLoop oracle config.retries config.retryDelay config.retries.toNat 1 none

theorem scrapeLoop_all_fail (oracle : Nat → Except String InvitationData)
    (R : Int) (delay : ℚ) (errf : Nat → String) :
    ∀ (fuel attempt : Nat) (lastError : Option String), 1 ≤ attempt →
      fuel = (R + 1 - attempt).toNat →
      (∀ i, attempt ≤ i → (i : Int) ≤ R → oracle i = .error (errf i)) →
      scrapeLoop oracle R delay fuel attempt lastError =
        { result := none,
          attempts := List.range' attempt (R + 1 - attempt).toNat,
          sleeps := (List.range' attempt (R - attempt).toNat).map
            (fun i => delay * 2 ^ (i - 1)),
          logs := (List.range' attempt (R + 1 - attempt).toNat).map
              (fun i => .attemptFailed i R (errf i)) ++
            [.allFailed R (if (attempt : Int) ≤ R then errf R.toNat
                           else lastError.getD "Unknown error")] } := by
  intro fuel
  induction fuel with
  | zero =>
    intro attempt lastError h1 hfuel _
    have hgt : ¬ ((attempt : Int) ≤ R) := by omega
    have e1 : (R + 1 - (attempt : Int)).toNat = 0 := by omega
    have e2 : (R - (attempt : Int)).toNat = 0 := by omega
    rw [scrapeLoop, e1, e2, if_neg hgt]
    simp [List.range']
  | succ fuel ih =>
    intro attempt lastError h1 hfuel hfail
    have hle : (attempt : Int) ≤ R := by omega
    rw [scrapeLoop, if_pos hle, hfail attempt le_rfl hle]
    dsimp only
    have ihres := ih (attempt + 1) (some (errf attempt))
      (by omega) (by omega)
      (fun i hi hiR => hfail i (by omega) hiR)
    rw [ihres]
    have hr1 : (R + 1 - (attempt : Int)).toNat = (R + 1 - ((attempt : Nat) + 1 : Nat)).toNat + 1 := by
      push_cast
      omega
    by_cases hlt : (attempt : Int) < R
    · have hr2 : (R - (attempt : Int)).toNat = (R - ((attempt : Nat) + 1 : Nat)).toNat + 1 := by
        push_cast
        omega
      have hif1 : ((attempt : Nat) + 1 : Int) ≤ R := by omega
      simp only [if_pos hlt, if_pos hle, if_pos hif1, hr1, hr2, List.range'_succ]
      simp
      intro h
      exact absurd h (by omega)
    · have heq : (attempt : Int) = R := by omega
      have hr2 : (R - (attempt : Int)).toNat = 0 := by omega
      have hr2' : (R - ((attempt : Nat) + 1 : Nat)).toNat = 0 := by push_cast; omega
      have hif1 : ¬ (((attempt : Nat) + 1 : Nat) : Int) ≤ R := by push_cast; omega
      have hRN : R.toNat = attempt := by omega
      simp only [if_neg hlt, if_pos hle, if_neg hif1, hr1, hr2, hr2', List.range'_succ]
      simp [hRN]

theorem scrapeLoop_succeeds_at (oracle : Nat → Except String InvitationData)
    (R : Int) (delay : ℚ) (errf : Nat → String) (k : Nat) (e : InvitationData) :
    ∀ (fuel attempt : Nat) (lastError : Option String), 1 ≤ attempt →
      attempt ≤ k → (k : Int) ≤ R →
      fuel = (R + 1 - attempt).toNat →
      (∀ i, attempt ≤ i → i < k → oracle i = .error (errf i)) →
      oracle k = .ok e →
      scrapeLoop oracle R delay fuel attempt lastError =
        { result := some e,
          attempts := List.range' attempt (k + 1 - attempt),
          sleeps := (List.range' attempt (k - attempt)).map
            (fun i => delay * 2 ^ (i - 1)),
          logs := (List.range' attempt (k - attempt)).map
            (fun i => .attemptFailed i R (errf i)) } := by
  intro fuel
  induction fuel with
  | zero =>
    intro attempt lastError h1 hak hkR hfuel _ _
    exfalso
    omega
  | succ fuel ih =>
    intro attempt lastError h1 hak hkR hfuel hfail hok
    have hle : (attempt : Int) ≤ R := by omega
    rw [scrapeLoop, if_pos hle]
    by_cases hk : attempt = k
    · subst hk
      rw [hok]
      have e1 : attempt + 1 - attempt = 1 := by omega
      have e2 : attempt - attempt = 0 := by omega
      rw [e1, e2]
      simp [List.range']
    · have haklt : attempt < k := by omega
      rw [hfail attempt le_rfl haklt]
      dsimp only
      have hlt : (attempt : Int) < R := by omega
      have ihres := ih (attempt + 1) (some (errf attempt))
        (by omega) (by omega) hkR (by omega)
        (fun i hi hik => hfail i (by omega) hik) hok
      rw [ihres]
      have hr1 : k + 1 - attempt = (k + 1 - (attempt + 1)) + 1 := by omega
      have hr2 : k - attempt = (k - (attempt + 1)) + 1 := by omega
      simp only [if_pos hlt, hr1, hr2, List.range'_succ]
      simp

/-- C6: with attempts `1..k-1` failing and attempt `k ≤ maxAttempts`
succeeding, `scrapeHealthcareRound` returns the successful Entry after
exactly `k-1` backoff sleeps of duration `retryDelay * 2 ^ (i-1)` for
`i = 1..k-1`; when every attempt fails, exactly `maxAttempts` attempts and
`maxAttempts - 1` sleeps occur, never more. -/
theorem scrape_retry_and_exhaustion (oracle : Nat → Except String InvitationData)
    (cfg : ScraperConfig) :
    (∀ (errf : Nat → String) (k : Nat) (e : InvitationData),
        1 ≤ k → (k : Int) ≤ cfg.retries →
        (∀ i, 1 ≤ i → i < k → oracle i = .error (errf i)) →
        oracle k = .ok e →
        (scrapeHealthcareRound oracle cfg).result = some e ∧
          (scrapeHealthcareRound oracle cfg).sleeps =
            (List.range' 1 (k - 1)).map (fun i => cfg.retryDelay * 2 ^ (i - 1)) ∧
          (scrapeHealthcareRound oracle cfg).attempts = List.range' 1 k) ∧
      (∀ (errf : Nat → String),
        1 ≤ cfg.retries →
        (∀ (i : Nat), 1 ≤ i → (i : Int) ≤ cfg.retries → oracle i = .error (errf i)) →
        (scrapeHealthcareRound oracle cfg).attempts.length = cfg.retries.toNat ∧
          (scrapeHealthcareRound oracle cfg).sleeps.length = cfg.retries.toNat - 1 ∧
          (scrapeHealthcareRound oracle cfg).result = none) := by
  constructor
  · intro errf k e hk hkR hfail hok
    unfold scrapeHealthcareRound
    rw [scrapeLoop_succeeds_at oracle cfg.retries cfg.retryDelay errf k e
      cfg.retries.toNat 1 none le_rfl hk hkR (by omega) hfail hok]
    refine ⟨rfl, ?_, ?_⟩
    · have : k - 1 = k - (1 : Nat) := rfl
      simp
    · have : k + 1 - 1 = k := by omega
      simp [this]
  · intro errf hR hfail
    unfold scrapeHealthcareRound
    rw [scrapeLoop_all_fail oracle cfg.retries cfg.retryDelay errf
      cfg.retries.toNat 1 none le_rfl (by omega) hfail]
    refine ⟨?_, ?_, rfl⟩
    · simp only [List.length_range']
      omega
    · simp only [List.length_map, List.length_range']
      omega

theorem scrape_retry_and_exhaustion_witness :
    ((scrapeHealthcareRound
          (fun i => if i = 2 then .ok ⟨"2024-01-15", 150, 410⟩ else .error "boom")
          ⟨"u", 30000, 3, 1000⟩).result = some ⟨"2024-01-15", 150, 410⟩ ∧
        (scrapeHealthcareRound
          (fun i => if i = 2 then .ok ⟨"2024-01-15", 150, 410⟩ else .error "boom")
          ⟨"u", 30000, 3, 1000⟩).sleeps =
          (List.range' 1 (2 - 1)).map
            (fun i => (⟨"u", 30000, 3, 1000⟩ : ScraperConfig).retryDelay * 2 ^ (i - 1)) ∧
        (scrapeHealthcareRound
          (fun i => if i = 2 then .ok ⟨"2024-01-15", 150, 410⟩ else .error "boom")
          ⟨"u", 30000, 3, 1000⟩).attempts = List.range' 1 2) ∧
      ((scrapeHealthcareRound (fun _ => .error "down")
          ⟨"u", 30000, 3, 1000⟩).attempts.length = (3 : Int).toNat ∧
        (scrapeHealthcareRound (fun _ => .error "down")
          ⟨"u", 30000, 3, 1000⟩).sleeps.length = (3 : Int).toNat - 1 ∧
        (scrapeHealthcareRound (fun _ => .error "down")
          ⟨"u", 30000, 3, 1000⟩).result = none) :=
  ⟨(scrape_retry_and_exhaustion
        (fun i => if i = 2 then .ok ⟨"2024-01-15", 150, 410⟩ else .error "boom")
        ⟨"u", 30000, 3, 1000⟩).1
      (fun _ => "boom") 2 ⟨"2024-01-15", 150, 410⟩ (by decide) (by decide)
      (fun i h1 h2 => by interval_cases i; rfl) rfl,
    (scrape_retry_and_exhaustion (fun _ => .error "down")
        ⟨"u", 30000, 3, 1000⟩).2
      (fun _ => "down") (by decide) (fun i h1 h2 => rfl)⟩

/-- C5: when all `maxAttempts` attempts fail, `scrapeHealthcareRound` yields
the explicit exhausted outcome (the `null` result; the function has no
throwing path), and the final Logger event reporting the exhaustion carries
the cause of the last failed attempt. -/
theorem scrape_exhaustion_carries_last_cause
    (oracle : Nat → Except String InvitationData) (cfg : ScraperConfig)
    (errf : Nat → String) (hR : 1 ≤ cfg.retries)
    (hfail : ∀ (i : Nat), 1 ≤ i → (i : Int) ≤ cfg.retries → oracle i = .error (errf i)) :
    (scrapeHealthcareRound oracle cfg).result = none ∧
      (scrapeHealthcareRound oracle cfg).logs.getLast? =
        some (.allFailed cfg.retries (errf cfg.retries.toNat)) := by
  unfold scrapeHealthcareRound
  rw [scrapeLoop_all_fail oracle cfg.retries cfg.retryDelay errf
    cfg.retries.toNat 1 none le_rfl (by omega) hfail]
  refine ⟨rfl, ?_⟩
  have h1 : ((1 : Nat) : Int) ≤ cfg.retries := by omega
  simp [if_pos h1, List.getLast?_concat]
  intro h
  exact absurd h (by omega)

theorem scrape_exhaustion_carries_last_cause_witness :
    (scrapeHealthcareRound (fun _ => .error "net down") ⟨"u", 30000, 2, 500⟩).result
        = none ∧
      (scrapeHealthcareRound (fun _ => .error "net down")
          ⟨"u", 30000, 2, 500⟩).logs.getLast? =
        some (.allFailed 2 "net down") :=
  scrape_exhaustion_carries_last_cause (fun _ => .error "net down")
    ⟨"u", 30000, 2, 500⟩ (fun _ => "net down") (by decide) (fun i h1 h2 => rfl)

/-- C10: with `retries ≤ 0` the loop body never runs: no fetch attempt, no
sleep, an immediate exhausted outcome (`null`), and no raised error (the
function is total). -/
theorem scrape_nonpositive_retries (oracle : Nat → Except String InvitationData)
    (cfg : ScraperConfig) (hR : cfg.retries ≤ 0) :
    scrapeHealthcareRound oracle cfg =
      { result := none, attempts := [], sleeps := [],
        logs := [.allFailed cfg.retries "Unknown error"] } := by
  unfold scrapeHealthcareRound
  have h0 : cfg.retries.toNat = 0 := by omega
  rw [h0]
  rfl

theorem scrape_nonpositive_retries_witness :
    scrapeHealthcareRound (fun _ => .error "x") ⟨"u", 30000, 0, 1000⟩ =
      { result := none, attempts := [], sleeps := [],
        logs := [.allFailed 0 "Unknown error"] } :=
  scrape_nonpositive_retries (fun _ => .error "x") ⟨"u", 30000, 0, 1000⟩ (by decide)

/-! ## Storage (`src/storage.ts`)

The persisted file is modelled at the JSON-document level: `JSON.stringify`
and `JSON.parse` are runtime builtins (not code of this repository) that are
mutually inverse on plain JSON values, so a file's bytes are represented as
either `malformed` (any byte sequence that is not valid JSON — `JSON.parse`
raises a `SyntaxError` on it) or the JSON document they decode to. -/

/-- A JSON value (the result of a successful `JSON.parse`). -/
inductive Json where
  | null
  | bool (b : Bool)
  | num (q : ℚ)
  | str (s : String)
  | arr (elems : List Json)
  | obj (fields : List (String × Json))

/-- Contents of one file on disk. -/
inductive FileContent where
  | malformed
  | json (j : Json)

/-- The filesystem: each path either holds a file or does not exist. -/
def FS : Type := String → Option FileContent

/-- Point update of the filesystem. -/
def fsSet (fs : FS) (path : String) (content : Option FileContent) : FS :=
  fun p => if p = path then content else fs p

/-- JS object property lookup on a parsed JSON object; `JSON.parse` keeps the
last of duplicate keys, hence the left fold. -/
def jsonLookup (fields : List (String × Json)) (k : String) : Option Json :=
  fields.foldl (fun acc p => if p.1 == k then some p.2 else acc) none

/-- `value[k]` on an arbitrary JSON value: `undefined` (`none`) on
non-objects (JS property access on numbers, strings, booleans and arrays
without that property yields `undefined`; `null` is handled separately by
callers because access on `null` throws). -/
def getField (j : Json) (k : String) : Option Json :=
  match j with
  | .obj fields => jsonLookup fields k
  | _ => none

/-- JS truthiness of a JSON value. -/
def jsTruthy (j : Json) : Bool :=
  match j with
  | .null => false
  | .bool b => b
  | .num q => decide (q ≠ 0)
  | .str s => !(s == "")
  | .arr _ => true
  | .obj _ => true

/-- `!x` for a possibly-`undefined` property value: `!undefined` is true. -/
def jsFalsyOpt (o : Option Json) : Bool :=
  match o with
  | none => true
  | some v => !(jsTruthy v)

/-- `typeof x === 'number'` for a possibly-`undefined` property value. -/
def isNumberField (o : Option Json) : Bool :=
  match o with
  | some (.num _) => true
  | _ => false

/-- `isValidInvitationData` from `src/validation.ts` on an arbitrary decoded
JSON value (`unknown`): `!data || typeof data !== 'object'` rejects `null`,
booleans, numbers and strings; arrays pass that guard but fail every field
check (their named properties are `undefined`). -/
def isValidInvitationData (j : Json) : Bool :=
  match j with
  | .obj fields =>
    (match jsonLookup fields "date" with
     | some (.str s) => isValidISODate s
     | _ => false) &&
    (match jsonLookup fields "invitations" with
     | some (.num q) => isPositiveInteger q
     | _ => false) &&
    (match jsonLookup fields "crsScore" with
     | some (.num q) => isPositiveInteger q
     | _ => false)
  | _ => false

/-- The JS object `{date, invitations, crsScore}` an `InvitationData` record
serialises to (field order as in the source's object literals). -/
def entryJson (d : InvitationData) : Json :=
  .obj [("date", .str d.date), ("invitations", .num d.invitations),
        ("crsScore", .num d.crsScore)]

/-- Reading the persisted object back as an Entry record (deep equality of
the round-trip is equality of this decoding with the original record). -/
def jsonDecodeEntry (j : Json) : Option InvitationData :=
  match getField j "date", getField j "invitations", getField j "crsScore" with
  | some (.str s), some (.num a), some (.num b) => some ⟨s, a, b⟩
  | _, _, _ => none

/-- Diagnostics `readStoredData`/`writeStoredData` emit via `logError`. -/
inductive StorageDiag where
  | invalidStructure (path : String)
  | parseFailure (path : String)
  | readFailure (path : String)
deriving DecidableEq, Repr

/-- Result of `readStoredData`: the returned value (`none` is the source's
`null`) and the emitted diagnostics.  The type is total: the source wraps
the whole body in `try`/`catch` and every failure path returns `null`. -/
structure ReadResult where
  result : Option Json
  diags : List StorageDiag

/-- `readStoredData` from `src/storage.ts`.  `ENOENT` (missing file) returns
`null` silently; a `SyntaxError` from `JSON.parse` (malformed bytes) logs
and returns `null`; a decoded `null` document makes `data.date` throw a
`TypeError`, caught by the generic handler which logs and returns `null`;
otherwise the basic structure check
`!data.date || typeof data.invitations !== 'number' || typeof data.crsScore !== 'number'`
decides between the invalid-structure diagnostic and returning the data. -/
def readStoredData (fs : FS) (config : StorageConfig) : ReadResult :=
  match fs config.dataFilePath with
  | none => { result := none, diags := [] }
  | some .malformed =>
    { result := none, diags := [.parseFailure config.dataFilePath] }
  | some (.json j) =>
    match j with
    | .null => { result := none, diags := [.readFailure config.dataFilePath] }
    | _ =>
      if jsFalsyOpt (getField j "date") || !isNumberField (getField j "invitations")
          || !isNumberField (getField j "crsScore") then
        { result := none, diags := [.invalidStructure config.dataFilePath] }
      else
        { result := some j, diags := [] }

/-- Result of `writeStoredData`: the filesystem after the call and the
outcome (`.error` models the thrown `StorageError`). -/
structure WriteResult where
  fs : FS
  result : Except String Unit

/-- `writeStoredData` from `src/storage.ts`.  The success or failure of each
filesystem primitive (`mkdir`, the temporary-file `writeFile`, `rename`, the
best-effort cleanup `unlink`) is injected as a flag.  A failed temporary
write may leave arbitrary partial bytes at the temporary path (modelled as
`malformed` content there); `rename` atomically installs the temporary
file's content at the final path and removes the temporary entry; a failed
`rename` triggers best-effort `unlink` of the temporary file.  Every failure
is logged and rethrown by the source's outer `catch`, modelled as the
`.error` result. -/
def writeStoredData (fs : FS) (config : StorageConfig) (data : InvitationData)
    (mkdirOk writeOk renameOk unlinkOk : Bool) : WriteResult :=
  let tempPath := config.dataFilePath ++ ".tmp"
  if !mkdirOk then
    { fs := fs, result := .error "Failed to create directory" }
  else if !writeOk then
    { fs := fsSet fs tempPath (some .malformed),
      result := .error "Failed to write to temporary file" }
  else
    let fs1 := fsSet fs tempPath (some (.json (entryJson data)))
    if renameOk then
      { fs := fsSet (fsSet fs1 config.dataFilePath (fs1 tempPath)) tempPath none,
        result := .ok () }
    else
      { fs := if unlinkOk then fsSet fs1 tempPath none else fs1,
        result := .error "Failed to rename temporary file" }

theorem tempPath_ne (s : String) : s ++ ".tmp" ≠ s := by
  intro h
  have hl := congrArg String.length h
  rw [String.length_append] at hl
  have : (".tmp" : String).length = 4 := by decide
  omega

theorem writeStoredData_success (fs : FS) (cfg : StorageConfig)
    (data : InvitationData) (unlinkOk : Bool) :
    (writeStoredData fs cfg data true true true unlinkOk).result = .ok () ∧
      (writeStoredData fs cfg data true true true unlinkOk).fs cfg.dataFilePath
        = some (.json (entryJson data)) ∧
      (writeStoredData fs cfg data true true true unlinkOk).fs
          (cfg.dataFilePath ++ ".tmp") = none := by
  have hne : cfg.dataFilePath ≠ cfg.dataFilePath ++ ".tmp" :=
    fun h => tempPath_ne cfg.dataFilePath h.symm
  refine ⟨rfl, ?_, ?_⟩
  · show (fsSet (fsSet (fsSet fs (cfg.dataFilePath ++ ".tmp")
        (some (.json (entryJson data)))) cfg.dataFilePath _)
        (cfg.dataFilePath ++ ".tmp") none) cfg.dataFilePath = _
    unfold fsSet
    rw [if_neg hne, if_pos rfl, if_pos rfl]
  · show (fsSet _ (cfg.dataFilePath ++ ".tmp") none) (cfg.dataFilePath ++ ".tmp") = none
    unfold fsSet
    rw [if_pos rfl]

theorem writeStoredData_failure (fs : FS) (cfg : StorageConfig)
    (data : InvitationData) (mkdirOk writeOk renameOk unlinkOk : Bool)
    (hfail : writeOk = false ∨ renameOk = false) :
    (∃ msg, (writeStoredData fs cfg data mkdirOk writeOk renameOk unlinkOk).result
        = .error msg) ∧
      (writeStoredData fs cfg data mkdirOk writeOk renameOk unlinkOk).fs
          cfg.dataFilePath = fs cfg.dataFilePath := by
  have hne : cfg.dataFilePath ≠ cfg.dataFilePath ++ ".tmp" :=
    fun h => tempPath_ne cfg.dataFilePath h.symm
  unfold writeStoredData
  cases mkdirOk with
  | false => exact ⟨⟨"Failed to create directory", rfl⟩, rfl⟩
  | true =>
    cases writeOk with
    | false =>
      refine ⟨⟨"Failed to write to temporary file", rfl⟩, ?_⟩
      show fsSet fs (cfg.dataFilePath ++ ".tmp") (some .malformed) cfg.dataFilePath
          = fs cfg.dataFilePath
      unfold fsSet
      rw [if_neg hne]
    | true =>
      cases renameOk with
      | true => cases hfail with
        | inl h => exact absurd h (by decide)
        | inr h => exact absurd h (by decide)
      | false =>
        refine ⟨⟨"Failed to rename temporary file", rfl⟩, ?_⟩
        cases unlinkOk with
        | false =>
          show fsSet fs (cfg.dataFilePath ++ ".tmp") _ cfg.dataFilePath
              = fs cfg.dataFilePath
          unfold fsSet
          rw [if_neg hne]
        | true =>
          show fsSet (fsSet fs (cfg.dataFilePath ++ ".tmp") _)
              (cfg.dataFilePath ++ ".tmp") none cfg.dataFilePath = fs cfg.dataFilePath
          unfold fsSet
          rw [if_neg hne, if_neg hne]

/-- C7: `writeStoredData` serialises to the distinct temporary path and
installs it with a single rename; on success the final path holds the full
serialized Entry and the temporary file is gone; if the temporary write or
the rename fails, it raises a `StorageError` and the content previously
persisted at the final location is exactly as it was. -/
theorem writeStoredData_atomic (fs : FS) (cfg : StorageConfig)
    (data : InvitationData) (mkdirOk writeOk renameOk unlinkOk : Bool) :
    (cfg.dataFilePath ++ ".tmp" ≠ cfg.dataFilePath) ∧
      (mkdirOk = true → writeOk = true → renameOk = true →
        (writeStoredData fs cfg data mkdirOk writeOk renameOk unlinkOk).result
            = .ok () ∧
          (writeStoredData fs cfg data mkdirOk writeOk renameOk unlinkOk).fs
              cfg.dataFilePath = some (.json (entryJson data)) ∧
          (writeStoredData fs cfg data mkdirOk writeOk renameOk unlinkOk).fs
              (cfg.dataFilePath ++ ".tmp") = none) ∧
      (writeOk = false ∨ renameOk = false →
        (∃ msg, (writeStoredData fs cfg data mkdirOk writeOk renameOk unlinkOk).result
            = .error msg) ∧
          (writeStoredData fs cfg data mkdirOk writeOk renameOk unlinkOk).fs
              cfg.dataFilePath = fs cfg.dataFilePath) := by
  refine ⟨tempPath_ne cfg.dataFilePath, ?_, ?_⟩
  · intro h1 h2 h3
    subst h1
    subst h2
    subst h3
    exact writeStoredData_success fs cfg data unlinkOk
  · intro hfail
    exact writeStoredData_failure fs cfg data mkdirOk writeOk renameOk unlinkOk hfail

theorem writeStoredData_atomic_witness :
    (("./d.json" ++ ".tmp" : String) ≠ "./d.json") ∧
      ((writeStoredData (fun _ => some .malformed) ⟨"./d.json"⟩
          ⟨"2024-01-15", 150, 410⟩ true true true true).result = .ok () ∧
        (writeStoredData (fun _ => some .malformed) ⟨"./d.json"⟩
            ⟨"2024-01-15", 150, 410⟩ true true true true).fs "./d.json"
          = some (.json (entryJson ⟨"2024-01-15", 150, 410⟩)) ∧
        (writeStoredData (fun _ => some .malformed) ⟨"./d.json"⟩
            ⟨"2024-01-15", 150, 410⟩ true true true true).fs ("./d.json" ++ ".tmp")
          = none) ∧
      ((∃ msg, (writeStoredData (fun _ => some .malformed) ⟨"./d.json"⟩
            ⟨"2024-01-15", 150, 410⟩ true false true true).result = .error msg) ∧
        (writeStoredData (fun _ => some .malformed) ⟨"./d.json"⟩
            ⟨"2024-01-15", 150, 410⟩ true false true true).fs "./d.json"
          = (fun _ => some FileContent.malformed : FS) "./d.json") :=
  ⟨(writeStoredData_atomic (fun _ => some .malformed) ⟨"./d.json"⟩
      ⟨"2024-01-15", 150, 410⟩ true true true true).1,
    (writeStoredData_atomic (fun _ => some .malformed) ⟨"./d.json"⟩
        ⟨"2024-01-15", 150, 410⟩ true true true true).2.1 rfl rfl rfl,
    (writeStoredData_atomic (fun _ => some .malformed) ⟨"./d.json"⟩
        ⟨"2024-01-15", 150, 410⟩ true false true true).2.2 (Or.inl rfl)⟩

/-- C4 counterexample: a persisted document whose `date` is not a valid ISO
date and whose `invitations` is not a positive integer fails `isValidEntry`,
yet `readStoredData` returns it non-null (the source only checks truthiness
of `date` and `typeof ... === 'number'` of the two counters). -/
theorem readStoredData_returns_invalid_entry :
    (readStoredData
        (fun p => if p = "./last-draw-data.json" then
          some (.json (.obj [("date", .str "2024-13-45"), ("invitations", .num 0),
            ("crsScore", .num 400)])) else none)
        ⟨"./last-draw-data.json"⟩).result =
      some (.obj [("date", .str "2024-13-45"), ("invitations", .num 0),
        ("crsScore", .num 400)]) ∧
      isValidInvitationData
        (.obj [("date", .str "2024-13-45"), ("invitations", .num 0),
          ("crsScore", .num 400)]) = false :=
  ⟨rfl, rfl⟩

/-- C4 amended: `readStoredData` never raises (its type is total: every
failure path of the source degrades to `null`); it returns `null` silently
when the file is absent, `null` plus a diagnostic when the bytes are not
valid JSON, and `null` plus a diagnostic when the decoded value fails the
basic structure check (truthy `date`, numeric `invitations` and `crsScore`);
every non-null result passed that basic check — but not necessarily the full
`isValidEntry`. -/
theorem readStoredData_never_raises (fs : FS) (cfg : StorageConfig) :
    (fs cfg.dataFilePath = none →
        readStoredData fs cfg = { result := none, diags := [] }) ∧
      (fs cfg.dataFilePath = some .malformed →
        readStoredData fs cfg =
          { result := none, diags := [.parseFailure cfg.dataFilePath] }) ∧
      (fs cfg.dataFilePath = some (.json .null) →
        readStoredData fs cfg =
          { result := none, diags := [.readFailure cfg.dataFilePath] }) ∧
      (∀ j, fs cfg.dataFilePath = some (.json j) → j ≠ .null →
        (jsFalsyOpt (getField j "date") || !isNumberField (getField j "invitations")
            || !isNumberField (getField j "crsScore")) = true →
        readStoredData fs cfg =
          { result := none, diags := [.invalidStructure cfg.dataFilePath] }) ∧
      (∀ j, (readStoredData fs cfg).result = some j →
        fs cfg.dataFilePath = some (.json j) ∧
          jsFalsyOpt (getField j "date") = false ∧
          isNumberField (getField j "invitations") = true ∧
          isNumberField (getField j "crsScore") = true) := by
  refine ⟨?_, ?_, ?_, ?_, ?_⟩
  · intro h
    unfold readStoredData
    rw [h]
  · intro h
    unfold readStoredData
    rw [h]
  · intro h
    unfold readStoredData
    rw [h]
  · intro j hjson hnull hcond
    unfold readStoredData
    rw [hjson]
    cases j with
    | null => exact absurd rfl hnull
    | bool b => simp [hcond]
    | num q => simp [hcond]
    | str s => simp [hcond]
    | arr xs => simp [hcond]
    | obj fields => simp [hcond]
  · intro j hj
    unfold readStoredData at hj
    rcases hfs : fs cfg.dataFilePath with _ | c
    · rw [hfs] at hj
      simp at hj
    · rcases c with _ | v
      · rw [hfs] at hj
        simp at hj
      · rw [hfs] at hj
        cases v with
        | null => simp at hj
        | bool b => simp [jsFalsyOpt, getField] at hj
        | num q => simp [jsFalsyOpt, getField] at hj
        | str s => simp [jsFalsyOpt, getField] at hj
        | arr xs => simp [jsFalsyOpt, getField] at hj
        | obj fields =>
          cases ha : jsFalsyOpt (getField (Json.obj fields) "date") with
          | true => simp [ha] at hj
          | false =>
            cases hb : isNumberField (getField (Json.obj fields) "invitations") with
            | false => simp [ha, hb] at hj
            | true =>
              cases hcs : isNumberField (getField (Json.obj fields) "crsScore") with
              | false => simp [ha, hb, hcs] at hj
              | true =>
                simp [ha, hb, hcs] at hj
                subst hj
                exact ⟨rfl, ha, hb, hcs⟩

theorem readStoredData_never_raises_witness :
    readStoredData (fun _ => none) ⟨"./last-draw-data.json"⟩ =
      { result := none, diags := [] } ∧
      readStoredData (fun _ => some (.json (.str "stale"))) ⟨"./d.json"⟩ =
        { result := none, diags := [.invalidStructure "./d.json"] } :=
  ⟨(readStoredData_never_raises (fun _ => none) ⟨"./last-draw-data.json"⟩).1 rfl,
    (readStoredData_never_raises (fun _ => some (.json (.str "stale")))
        ⟨"./d.json"⟩).2.2.2.1 (.str "stale") rfl
      (fun h => Json.noConfusion h) rfl⟩

theorem readStoredData_of_stored_entry (fs : FS) (cfg : StorageConfig)
    (e : InvitationData) (hfs : fs cfg.dataFilePath = some (.json (entryJson e)))
    (hdate : (e.date == "") = false) :
    readStoredData fs cfg = { result := some (entryJson e), diags := [] } := by
  unfold readStoredData
  rw [hfs]
  have hget : getField (entryJson e) "date" = some (.str e.date) := rfl
  have hfalsy : jsFalsyOpt (getField (entryJson e) "date") = false := by
    rw [hget]
    unfold jsFalsyOpt jsTruthy
    simp [hdate]
  have hinv : isNumberField (getField (entryJson e) "invitations") = true := rfl
  have hcrs : isNumberField (getField (entryJson e) "crsScore") = true := rfl
  rw [show (entryJson e) = Json.obj [("date", .str e.date),
    ("invitations", .num e.invitations), ("crsScore", .num e.crsScore)] from rfl]
  dsimp only
  rw [show jsFalsyOpt (getField (Json.obj [("date", .str e.date),
    ("invitations", .num e.invitations), ("crsScore", .num e.crsScore)]) "date")
      = false from hfalsy]
  rfl

/-- C8: writing a valid Entry and reading the same location back (with the
filesystem primitives succeeding) returns exactly the persisted document of
that Entry; decoding it yields a record deep-equal to the original, and it
passes full validation. -/
theorem write_then_read_roundtrip (fs : FS) (cfg : StorageConfig)
    (e : InvitationData) (unlinkOk : Bool)
    (hvalid : isValidInvitationRecord e = true) :
    (readStoredData (writeStoredData fs cfg e true true true unlinkOk).fs cfg).result
        = some (entryJson e) ∧
      jsonDecodeEntry (entryJson e) = some e := by
  have hw := (writeStoredData_success fs cfg e unlinkOk).2.1
  have hdate := valid_record_date_beq_empty_false hvalid
  rw [readStoredData_of_stored_entry _ cfg e hw hdate]
  exact ⟨rfl, rfl⟩

theorem write_then_read_roundtrip_witness :
    isValidInvitationRecord ⟨"2024-01-15", 3500, 431⟩ = true ∧
      (readStoredData
          (writeStoredData (fun _ => none) ⟨"./d.json"⟩
            ⟨"2024-01-15", 3500, 431⟩ true true true true).fs
          ⟨"./d.json"⟩).result = some (entryJson ⟨"2024-01-15", 3500, 431⟩) ∧
      jsonDecodeEntry (entryJson ⟨"2024-01-15", 3500, 431⟩)
        = some ⟨"2024-01-15", 3500, 431⟩ :=
  ⟨by decide,
    (write_then_read_roundtrip (fun _ => none) ⟨"./d.json"⟩
        ⟨"2024-01-15", 3500, 431⟩ true (by decide)).1,
    (write_then_read_roundtrip (fun _ => none) ⟨"./d.json"⟩
        ⟨"2024-01-15", 3500, 431⟩ true (by decide)).2⟩

/-! ## Orchestrator (`src/controller.ts`) -/

/-- Observable events of one `runMonitor` run, in order: Logger calls, the
notification `fetch` being issued, and `writeStoredData` being invoked. -/
inductive RunEvent where
  | logChange (d : InvitationData)
  | logNoChange
  | logErrorEv (context : String) (cause : String)
  | notifyAttempt (d : InvitationData)
  | writeAttempt (d : InvitationData)
deriving DecidableEq, Repr

/-- Result of one `runMonitor` run: the events it emitted and whether it
returned normally or threw (`.error` carries the cause text). -/
structure RunResult where
  events : List RunEvent
  outcome : Except String Unit
deriving DecidableEq, Repr

/-- `runMonitor` from `src/controller.ts`, with its collaborators abstracted:
`previousData` is the value `readStoredData` produced (read never raises),
`scrapeResult` the value from `scrapeHealthcareRound`, `notifyResult` the
outcome of the awaited notification `fetch` (`.error` = the promise
rejected), and `writeResult` the outcome of `writeStoredData` when invoked.
The source awaits the `fetch` with no surrounding `try`, so a rejected fetch
propagates to the outer `catch`, which logs and rethrows; only
`writeStoredData` has an inner `try`/`catch`. -/
def runMonitor (previousData : Option InvitationData)
    (scrapeResult : Option InvitationData)
    (notifyResult : Except String Unit)
    (writeResult : Except String Unit) : RunResult :=
  match scrapeResult with
  | none =>
    { events := [.logErrorEv "Failed to retrieve current healthcare round data"
          "Scraping failed after all retry attempts",
        .logErrorEv "Unexpected error in monitor orchestration"
          "Scraping failed after all retry attempts"],
      outcome := .error "Scraping failed after all retry attempts" }
  | some currentData =>
    match compareData previousData currentData with
    | .error e =>
      { events := [.logErrorEv "Unexpected error in monitor orchestration" e],
        outcome := .error e }
    | .ok comparisonResult =>
      if comparisonResult.hasChanged then
        match notifyResult with
        | .error e =>
          { events := [.logChange currentData, .notifyAttempt currentData,
              .logErrorEv "Unexpected error in monitor orchestration" e],
            outcome := .error e }
        | .ok _ =>
          match writeResult with
          | .error e =>
            { events := [.logChange currentData, .notifyAttempt currentData,
                .writeAttempt currentData,
                .logErrorEv "Failed to update storage after detecting change" e,
                .logErrorEv "Unexpected error in monitor orchestration"
                  "Failed to update storage after detecting change"],
              outcome := .error "Failed to update storage after detecting change" }
          | .ok _ =>
            { events := [.logChange currentData, .notifyAttempt currentData,
                .writeAttempt currentData],
              outcome := .ok () }
      else
        { events := [.logNoChange], outcome := .ok () }

/-- C1 counterexample: prior Entry of 2024-01-14, freshly scraped Entry of
2024-01-15 (a change), Notifier `fetch` rejecting with a network failure,
and a storage write that would succeed: `runMonitor` never invokes
`Store.write` and the run aborts with the notification failure — refuting
the claim that the failure is swallowed and persistence still happens. -/
theorem runMonitor_notify_failure_skips_write :
    runMonitor (some ⟨"2024-01-14", 100, 400⟩) (some ⟨"2024-01-15", 150, 410⟩)
        (.error "network failure") (.ok ()) =
      { events := [.logChange ⟨"2024-01-15", 150, 410⟩,
          .notifyAttempt ⟨"2024-01-15", 150, 410⟩,
          .logErrorEv "Unexpected error in monitor orchestration" "network failure"],
        outcome := .error "network failure" } ∧
      RunEvent.writeAttempt ⟨"2024-01-15", 150, 410⟩ ∉
        (runMonitor (some ⟨"2024-01-14", 100, 400⟩) (some ⟨"2024-01-15", 150, 410⟩)
          (.error "network failure") (.ok ())).events ∧
      (runMonitor (some ⟨"2024-01-14", 100, 400⟩) (some ⟨"2024-01-15", 150, 410⟩)
          (.error "network failure") (.ok ())).outcome ≠ .ok () :=
  ⟨by decide, by decide, by decide⟩

/-- C1 amended: when a change is detected and the Notifier call fails, the
failure propagates out of the (unguarded) `await fetch`: the orchestration's
outer handler logs it and rethrows it, the run aborts with that failure, and
`Store.write` is never invoked — persistence is skipped, not preserved. -/
theorem runMonitor_notify_failure_aborts (previousData : Option InvitationData)
    (currentData : InvitationData) (e : String) (writeResult : Except String Unit)
    (cr : ComparisonResult)
    (hcmp : compareData previousData currentData = .ok cr)
    (hch : cr.hasChanged = true) :
    runMonitor previousData (some currentData) (.error e) writeResult =
      { events := [.logChange currentData, .notifyAttempt currentData,
          .logErrorEv "Unexpected error in monitor orchestration" e],
        outcome := .error e } ∧
      (∀ d, RunEvent.writeAttempt d ∉
        (runMonitor previousData (some currentData) (.error e) writeResult).events) := by
  have hrun : runMonitor previousData (some currentData) (.error e) writeResult =
      { events := [.logChange currentData, .notifyAttempt currentData,
          .logErrorEv "Unexpected error in monitor orchestration" e],
        outcome := .error e } := by
    unfold runMonitor
    dsimp only
    rw [hcmp]
    simp [hch]
  refine ⟨hrun, ?_⟩
  intro d
  rw [hrun]
  simp

theorem runMonitor_notify_failure_aborts_witness :
    runMonitor none (some ⟨"2024-01-15", 150, 410⟩) (.error "timeout") (.ok ()) =
      { events := [.logChange ⟨"2024-01-15", 150, 410⟩,
          .notifyAttempt ⟨"2024-01-15", 150, 410⟩,
          .logErrorEv "Unexpected error in monitor orchestration" "timeout"],
        outcome := .error "timeout" } ∧
      (∀ d, RunEvent.writeAttempt d ∉
        (runMonitor none (some ⟨"2024-01-15", 150, 410⟩) (.error "timeout")
          (.ok ())).events) :=
  runMonitor_notify_failure_aborts none ⟨"2024-01-15", 150, 410⟩ "timeout" (.ok ())
    { hasChanged := true, previous := none, current := ⟨"2024-01-15", 150, 410⟩ }
    (by decide) rfl

end ExpressEntry
